import Mathlib

/-!
Verification of the error-classifier and shared-counter behaviour of the
hello-actix tutorial server (src/main.rs), shallowly embedded in Lean.

The two error enums (`MyErrors`, `UserErrors`) and their
`ResponseError` implementations are embedded as inductive types with
`display` (the fail-derive display strings), `status_code` and
`error_response` functions.  The app1 handler and its mutex-guarded
`i32` counter are embedded as a pure state transformer on `AppState`;
the mutex serializes the increment-and-read critical sections, so a
concurrent execution of n requests is modelled as a serialized run
(`runApp1`), faithful to the mutual-exclusion semantics of the lock.
The Rust counter is an `i32`, so the increment wraps at 2^31 - 1
(release-profile two's-complement semantics), modelled by `wrapI32`.
-/

namespace HelloActix

/-- An HTTP response as produced by the error classifiers: numeric status
code, the `Content-Type` header value set by `error_response`, and the body
text. -/
structure Response where
  status : Nat
  contentType : String
  body : String
  deriving DecidableEq, Repr

/-- The server error enum `MyErrors` (src/main.rs lines 121-129). -/
inductive MyErrors where
  | InternalError
  | BadClientData
  | Timeout
  deriving DecidableEq, Repr

/-- Display strings of `MyErrors`, from the fail-derive attributes
(src/main.rs lines 123-128). -/
def MyErrors.display : MyErrors → String
  | .InternalError => "internal error"
  | .BadClientData => "bad request"
  | .Timeout => "timeout"

/-- `MyErrors::status_code` (src/main.rs lines 137-143). -/
def MyErrors.status_code : MyErrors → Nat
  | .InternalError => 500
  | .BadClientData => 400
  | .Timeout => 504

/-- `MyErrors::error_response` (src/main.rs lines 131-135): builds the
response from `status_code`, the fixed content type and the display string. -/
def MyErrors.error_response (e : MyErrors) : Response :=
  ⟨e.status_code, "text/html; charset=utf-8", e.display⟩

/-- The user error enum `UserErrors` (src/main.rs lines 152-158). -/
inductive UserErrors where
  | ValidationError (field : String)
  | InternalError
  deriving DecidableEq, Repr

/-- Display strings of `UserErrors`, from the fail-derive attributes
(src/main.rs lines 154-157). -/
def UserErrors.display : UserErrors → String
  | .ValidationError field => "Validation error on field: " ++ field
  | .InternalError => "An internal error occurred. Please try again later."

/-- `UserErrors::status_code` (src/main.rs lines 165-170). -/
def UserErrors.status_code : UserErrors → Nat
  | .ValidationError _ => 400
  | .InternalError => 500

/-- `UserErrors::error_response` (src/main.rs lines 160-164). -/
def UserErrors.error_response (e : UserErrors) : Response :=
  ⟨e.status_code, "text/html; charset=utf-8", e.display⟩

/-- The struct `MyError` (src/main.rs lines 106-110). -/
structure MyError where
  name : String
  deriving DecidableEq, Repr

/-- `validate_user_input_error` (src/main.rs lines 179-183): unconditionally
returns an error. -/
def validate_user_input_error : Except MyError Unit :=
  Except.error ⟨"input error"⟩

/-- The `user_error` handler body (src/main.rs lines 173-177): maps the
validation error to `UserErrors::ValidationError` with field `name`,
propagates it, and otherwise returns `Ok("success!")`. -/
def user_error : Except UserErrors String :=
  match Except.mapError (fun _e => UserErrors.ValidationError "name")
      validate_user_input_error with
  | Except.error e => Except.error e
  | Except.ok _ => Except.ok "success!"

/-- Two's-complement wrap of an integer into the `i32` range
[-2147483648, 2147483648): the release-profile semantics of the Rust
`i32` addition performed by the counter increment. -/
def wrapI32 (x : Int) : Int := (x + 2147483648) % 4294967296 - 2147483648

/-- The shared state `AppState` (src/main.rs lines 48-51): the application
name and the mutex-guarded `i32` request counter (the counter field holds
the integer the mutex protects). -/
structure AppState where
  app_name : String
  counter : Int
  deriving DecidableEq, Repr

/-- The shared state as constructed in `main` (src/main.rs lines 188-191). -/
def initState : AppState := ⟨"hello-actix", 0⟩

/-- One invocation of the `app1` handler (src/main.rs lines 53-63) under the
mutex: increment the counter (`i32` addition) and build the response body
from `app_name` and the incremented counter. -/
def app1 (s : AppState) : AppState × String :=
  let counter := wrapI32 (s.counter + 1)
  (⟨s.app_name, counter⟩,
    "Hello to " ++ s.app_name ++ " and Request number is " ++ toString counter)

/-- A serialized run of n `app1` invocations (the mutex serializes the
increment-and-read critical sections, so any concurrent execution of n
requests is equivalent to such a run): the final state together with the
list of counter values the responses observed, in serialization order. -/
def runApp1 : Nat → AppState → AppState × List Int
  | 0, s => (s, [])
  | Nat.succ n, s =>
    let s1 := (app1 s).1
    let rest := runApp1 n s1
    (rest.1, s1.counter :: rest.2)

/-- The n consecutive integers following c: the counter values a serialized
run starting at counter value c is expected to expose. -/
def countFrom (c : Int) : Nat → List Int
  | 0 => []
  | Nat.succ n => (c + 1) :: countFrom (c + 1) n

theorem wrapI32_eq_self (x : Int) (h1 : -2147483648 ≤ x) (h2 : x < 2147483648) :
    wrapI32 x = x := by
  unfold wrapI32
  omega

theorem wrapI32_bounds (x : Int) :
    -2147483648 ≤ wrapI32 x ∧ wrapI32 x < 2147483648 := by
  unfold wrapI32
  omega

theorem wrapI32_add_right (x y : Int) :
    wrapI32 (wrapI32 x + y) = wrapI32 (x + y) := by
  unfold wrapI32
  omega

theorem runApp1_app_name (n : Nat) : ∀ s : AppState,
    (runApp1 n s).1.app_name = s.app_name := by
  induction n with
  | zero => intro s; rfl
  | succ n ih =>
    intro s
    simpa [runApp1, app1] using ih ⟨s.app_name, wrapI32 (s.counter + 1)⟩

theorem runApp1_no_overflow (n : Nat) : ∀ s : AppState,
    -2147483648 ≤ s.counter → s.counter + n < 2147483648 →
    (runApp1 n s).1.counter = s.counter + n ∧
    (runApp1 n s).2 = countFrom s.counter n := by
  induction n with
  | zero => intro s _ _; exact ⟨by simp [runApp1], rfl⟩
  | succ n ih =>
    intro s h1 h2
    have hcast : ((n + 1 : Nat) : Int) = (n : Int) + 1 := by push_cast; ring
    have hn : s.counter + 1 < 2147483648 := by
      rw [hcast] at h2; omega
    have hw : wrapI32 (s.counter + 1) = s.counter + 1 :=
      wrapI32_eq_self _ (by omega) hn
    have ih' := ih ⟨s.app_name, wrapI32 (s.counter + 1)⟩
      (by simpa [hw] using (by omega : -2147483648 ≤ s.counter + 1))
      (by rw [hcast] at h2; simpa [hw] using (by omega : s.counter + 1 + n < 2147483648))
    refine ⟨?_, ?_⟩
    · show (runApp1 (n + 1) s).1.counter = _
      simp only [runApp1, app1]
      rw [ih'.1]
      simp [hw, hcast]
      ring
    · show (runApp1 (n + 1) s).2 = _
      simp only [runApp1, app1, countFrom]
      rw [ih'.2]
      simp [hw]

theorem runApp1_counter_wrap (n : Nat) : ∀ s : AppState,
    -2147483648 ≤ s.counter → s.counter < 2147483648 →
    (runApp1 n s).1.counter = wrapI32 (s.counter + n) := by
  induction n with
  | zero =>
    intro s h1 h2
    simp [runApp1, wrapI32_eq_self s.counter h1 h2]
  | succ n ih =>
    intro s h1 h2
    have hb := wrapI32_bounds (s.counter + 1)
    have ih' := ih ⟨s.app_name, wrapI32 (s.counter + 1)⟩ hb.1 hb.2
    show (runApp1 (n + 1) s).1.counter = _
    simp only [runApp1, app1]
    rw [ih']
    show wrapI32 (wrapI32 (s.counter + 1) + n) = _
    rw [wrapI32_add_right]
    have : s.counter + 1 + (n : Int) = s.counter + ((n : Int) + 1) := by ring
    rw [this]
    push_cast
    ring_nf

theorem countFrom_mem (n : Nat) : ∀ c x : Int,
    x ∈ countFrom c n → c < x ∧ x ≤ c + n := by
  induction n with
  | zero => intro c x hx; simp [countFrom] at hx
  | succ n ih =>
    intro c x hx
    simp only [countFrom, List.mem_cons] at hx
    rcases hx with h | h
    · subst h
      refine ⟨by omega, ?_⟩
      push_cast
      omega
    · have := ih (c + 1) x h
      push_cast
      omega

theorem countFrom_nodup (n : Nat) : ∀ c : Int, (countFrom c n).Nodup := by
  induction n with
  | zero => intro c; simp [countFrom]
  | succ n ih =>
    intro c
    simp only [countFrom, List.nodup_cons]
    exact ⟨fun hmem => absurd (countFrom_mem n (c + 1) (c + 1) hmem).1 (by omega), ih (c + 1)⟩

/-- C1: for each of the four §4.1 variant kinds — InternalError (in both
error enums), BadClientData, Timeout and ValidationError — the classifier
returns exactly the table's status code (500, 400, 504, 400) and every
classified response carries content-type text/html; charset=utf-8. -/
theorem classifier_table_status_and_content_type :
    (MyErrors.error_response .InternalError).status = 500 ∧
    (MyErrors.error_response .BadClientData).status = 400 ∧
    (MyErrors.error_response .Timeout).status = 504 ∧
    (∀ f : String, (UserErrors.error_response (.ValidationError f)).status = 400) ∧
    (UserErrors.error_response .InternalError).status = 500 ∧
    (∀ e : MyErrors,
      (MyErrors.error_response e).contentType = "text/html; charset=utf-8") ∧
    (∀ u : UserErrors,
      (UserErrors.error_response u).contentType = "text/html; charset=utf-8") := by
  refine ⟨rfl, rfl, rfl, fun _ => rfl, rfl, fun e => ?_, fun u => ?_⟩
  · cases e <;> rfl
  · cases u <;> rfl

/-- C2 (amended): MyErrors.InternalError yields status 500, the fixed
content type and body exactly "internal error"; UserErrors.InternalError
yields status 500 but its body is the longer apology message, not
"internal error". -/
theorem internal_error_responses :
    MyErrors.error_response .InternalError =
      ⟨500, "text/html; charset=utf-8", "internal error"⟩ ∧
    (UserErrors.error_response .InternalError).status = 500 ∧
    (UserErrors.error_response .InternalError).body =
      "An internal error occurred. Please try again later." :=
  ⟨rfl, rfl, rfl⟩

/-- C2 counterexample: the claim that every InternalError value produces
body "internal error" fails at UserErrors.InternalError, whose body is the
apology message. -/
theorem internal_error_body_counterexample :
    (UserErrors.error_response .InternalError).body ≠ "internal error" := by
  decide

/-- C3: ValidationError with field "name" produces status 400 and body
exactly "Validation error on field: name", and for every field string f the
body is "Validation error on field: " followed by f. -/
theorem validation_error_response :
    (UserErrors.error_response (.ValidationError "name")).status = 400 ∧
    (UserErrors.error_response (.ValidationError "name")).body =
      "Validation error on field: name" ∧
    ∀ f : String, (UserErrors.error_response (.ValidationError f)).body =
      "Validation error on field: " ++ f :=
  ⟨rfl, rfl, fun _ => rfl⟩

/-- C4: Timeout produces status 504 and body exactly "timeout". -/
theorem timeout_response :
    MyErrors.error_response .Timeout =
      ⟨504, "text/html; charset=utf-8", "timeout"⟩ :=
  rfl

/-- C5: BadClientData produces status 400 and body exactly "bad request". -/
theorem bad_client_data_response :
    MyErrors.error_response .BadClientData =
      ⟨400, "text/html; charset=utf-8", "bad request"⟩ :=
  rfl

/-- C6: the classifier is total over the closed variant sets: every variant
of either error enum is mapped to exactly one (status, content-type, body)
triple, determined by the variant alone, with no failure branch (the
embedded error_response functions return a Response outright, not an
option). -/
theorem classifier_total :
    (∀ e : MyErrors, ∃! r : Response, MyErrors.error_response e = r) ∧
    (∀ u : UserErrors, ∃! r : Response, UserErrors.error_response u = r) :=
  ⟨fun e => ⟨e.error_response, rfl, fun _ h => h.symm⟩,
   fun u => ⟨u.error_response, rfl, fun _ h => h.symm⟩⟩

/-- C7: the classifier is deterministic: two invocations on equal inputs
yield identical (status, content-type, body) output, for both error
enums. -/
theorem classifier_deterministic (e₁ e₂ : MyErrors) (u₁ u₂ : UserErrors)
    (he : e₁ = e₂) (hu : u₁ = u₂) :
    MyErrors.error_response e₁ = MyErrors.error_response e₂ ∧
    UserErrors.error_response u₁ = UserErrors.error_response u₂ :=
  ⟨he ▸ rfl, hu ▸ rfl⟩

/-- C7 witness: determinism instantiated at Timeout and at ValidationError
with field "name". -/
theorem classifier_deterministic_witness :
    MyErrors.Timeout = MyErrors.Timeout ∧
    UserErrors.ValidationError "name" = UserErrors.ValidationError "name" ∧
    (MyErrors.error_response MyErrors.Timeout =
       MyErrors.error_response MyErrors.Timeout ∧
     UserErrors.error_response (UserErrors.ValidationError "name") =
       UserErrors.error_response (UserErrors.ValidationError "name")) :=
  ⟨rfl, rfl,
   classifier_deterministic MyErrors.Timeout MyErrors.Timeout
     (UserErrors.ValidationError "name") (UserErrors.ValidationError "name") rfl rfl⟩

/-- C9: the user_error handler always returns
Err(UserErrors.ValidationError with field "name"); its Ok branch is
unreachable because validate_user_input_error unconditionally errors. -/
theorem user_error_always_validation_error :
    user_error = Except.error (UserErrors.ValidationError "name") :=
  rfl

/-- C8 (amended): for every N with N ≤ 2147483647 (the i32 maximum, so the
counter does not overflow), a run of N increments serialized by the mutex,
starting from the initial state, ends with counter exactly N, the responses
observe the counts 1, 2, ..., N in serialization order, and no two
responses observe the same count (no lost, torn or duplicate updates). -/
theorem concurrent_increments_count (N : Nat) (h : (N : Int) ≤ 2147483647) :
    (runApp1 N initState).1.counter = N ∧
    (runApp1 N initState).2 = countFrom 0 N ∧
    (runApp1 N initState).2.Nodup := by
  have hrun := runApp1_no_overflow N initState (by simp [initState])
    (by simp only [initState]; omega)
  refine ⟨by simpa [initState] using hrun.1, by simpa [initState] using hrun.2, ?_⟩
  rw [show (runApp1 N initState).2 = countFrom 0 N by simpa [initState] using hrun.2]
  exact countFrom_nodup N 0

/-- C8 witness: five serialized increments from the initial state give final
counter 5 and the duplicate-free observation list 1..5. -/
theorem concurrent_increments_count_witness :
    ((5 : Nat) : Int) ≤ 2147483647 ∧
    ((runApp1 5 initState).1.counter = 5 ∧
     (runApp1 5 initState).2 = countFrom 0 5 ∧
     (runApp1 5 initState).2.Nodup) :=
  ⟨by decide, concurrent_increments_count 5 (by decide)⟩

/-- C8 counterexample: the claim for every N fails at N = 2147483648: the
counter is an i32, so the 2147483648-th increment wraps and the final
counter is -2147483648, not 2147483648. -/
theorem concurrent_increments_overflow_counterexample :
    (runApp1 2147483648 initState).1.counter ≠ 2147483648 := by
  have h := runApp1_counter_wrap 2147483648 initState
    (by simp [initState]) (by simp [initState])
  rw [h]
  simp only [initState, wrapI32]
  decide

/-- C10 (amended): provided the counter is in i32 range and below the i32
maximum 2147483647, one app1 invocation increments the counter by exactly 1
and leaves app_name unchanged; moreover app_name is "hello-actix" at
startup and stays "hello-actix" along every serialized run (at the i32
maximum the increment wraps instead). -/
theorem app1_increment_and_frame (s : AppState)
    (h1 : -2147483648 ≤ s.counter) (h2 : s.counter < 2147483647) :
    (app1 s).1.counter = s.counter + 1 ∧
    (app1 s).1.app_name = s.app_name ∧
    initState.app_name = "hello-actix" ∧
    ∀ n : Nat, (runApp1 n initState).1.app_name = "hello-actix" := by
  refine ⟨?_, rfl, rfl, fun n => runApp1_app_name n initState⟩
  show wrapI32 (s.counter + 1) = s.counter + 1
  exact wrapI32_eq_self _ (by omega) (by omega)

/-- C10 witness: the increment and frame property instantiated at the
initial state. -/
theorem app1_increment_and_frame_witness :
    -2147483648 ≤ initState.counter ∧ initState.counter < 2147483647 ∧
    ((app1 initState).1.counter = initState.counter + 1 ∧
     (app1 initState).1.app_name = initState.app_name ∧
     initState.app_name = "hello-actix" ∧
     ∀ n : Nat, (runApp1 n initState).1.app_name = "hello-actix") :=
  ⟨by decide, by decide, app1_increment_and_frame initState (by decide) (by decide)⟩

/-- C10 counterexample: at counter value 2147483647 (the i32 maximum) the
app1 increment wraps to -2147483648 rather than adding 1, so the claim that
every invocation increments the counter by exactly 1 fails. -/
theorem app1_increment_overflow_counterexample :
    (app1 ⟨"hello-actix", 2147483647⟩).1.counter ≠ 2147483647 + 1 := by
  show wrapI32 (2147483647 + 1) ≠ 2147483647 + 1
  simp only [wrapI32]
  decide

end HelloActix
